import Mathlib

/-!
Verification of the core authorization engine of the
matrix-authentication-service repository, as a shallow embedding in Lean.

Bytes and characters are modelled as `Nat` (with explicit `< 256` bounds
where byte reassembly matters), timestamps as `Int` (seconds), and the
database as an explicit record threaded through the handlers.
-/

deriving instance DecidableEq for Except

/-! ## Base64url codec (data_encoding BASE64URL_NOPAD, as used by csrf.rs) -/

/-- The URL-safe base64 alphabet: maps a sextet (value < 64) to its
character code. -/
def charOfSextet (s : Nat) : Nat :=
  if s < 26 then 65 + s
  else if s < 52 then 97 + (s - 26)
  else if s < 62 then 48 + (s - 52)
  else if s = 62 then 45
  else 95

/-- Inverse of the URL-safe base64 alphabet; `none` on a character outside
the alphabet. -/
def sextetOfChar (c : Nat) : Option Nat :=
  if 65 ≤ c ∧ c ≤ 90 then some (c - 65)
  else if 97 ≤ c ∧ c ≤ 122 then some (c - 97 + 26)
  else if 48 ≤ c ∧ c ≤ 57 then some (c - 48 + 52)
  else if c = 45 then some 62
  else if c = 95 then some 63
  else none

/-- Splits a byte list into base64 sextets (no padding). -/
def b64EncSextets : List Nat → List Nat
  | x :: y :: z :: rest =>
      (x / 4) :: ((x % 4) * 16 + y / 16) :: ((y % 16) * 4 + z / 64) :: (z % 64) ::
        b64EncSextets rest
  | [x, y] => [x / 4, (x % 4) * 16 + y / 16, (y % 16) * 4]
  | [x] => [x / 4, (x % 4) * 16]
  | [] => []

/-- Reassembles bytes from base64 sextets, rejecting impossible lengths and
non-zero trailing bits (data_encoding's canonical decoding). -/
def b64DecSextets : List Nat → Option (List Nat)
  | a :: b :: c :: d :: rest =>
      (b64DecSextets rest).map fun r =>
        (a * 4 + b / 16) :: ((b % 16) * 16 + c / 4) :: ((c % 4) * 64 + d) :: r
  | [a, b, c] =>
      if c % 4 = 0 then some [a * 4 + b / 16, (b % 16) * 16 + c / 4] else none
  | [a, b] => if b % 16 = 0 then some [a * 4 + b / 16] else none
  | [_] => none
  | [] => some []

/-- `BASE64URL_NOPAD.encode`: bytes to character codes. -/
def b64Encode (bytes : List Nat) : List Nat :=
  (b64EncSextets bytes).map charOfSextet

/-- Decodes every character through the alphabet, failing on the first
character outside it. -/
def b64DecChars : List Nat → Option (List Nat)
  | [] => some []
  | c :: rest =>
      match sextetOfChar c, b64DecChars rest with
      | some s, some ss => some (s :: ss)
      | _, _ => none

/-- `BASE64URL_NOPAD.decode`: character codes back to bytes, `none` on any
decoding error. -/
def b64Decode (chars : List Nat) : Option (List Nat) :=
  (b64DecChars chars).bind b64DecSextets

theorem sextetOfChar_charOfSextet : ∀ s, s < 64 → sextetOfChar (charOfSextet s) = some s := by
  decide

theorem b64EncSextets_lt : ∀ b : List Nat, (∀ x ∈ b, x < 256) →
    ∀ s ∈ b64EncSextets b, s < 64
  | [], _ => by simp [b64EncSextets]
  | [x], h => by
      have hx : x < 256 := h x (by simp)
      simp only [b64EncSextets, List.mem_cons, List.not_mem_nil, or_false]
      rintro s (rfl | rfl) <;> omega
  | [x, y], h => by
      have hx : x < 256 := h x (by simp)
      have hy : y < 256 := h y (by simp)
      simp only [b64EncSextets, List.mem_cons, List.not_mem_nil, or_false]
      rintro s (rfl | rfl | rfl) <;> omega
  | x :: y :: z :: rest, h => by
      have hx : x < 256 := h x (by simp)
      have hy : y < 256 := h y (by simp)
      have hz : z < 256 := h z (by simp)
      have ih := b64EncSextets_lt rest (fun a ha => h a (by simp [ha]))
      simp only [b64EncSextets, List.mem_cons]
      rintro s (rfl | rfl | rfl | rfl | hs)
      · omega
      · omega
      · omega
      · omega
      · exact ih s hs

theorem b64DecSextets_enc : ∀ b : List Nat, (∀ x ∈ b, x < 256) →
    b64DecSextets (b64EncSextets b) = some b
  | [], _ => rfl
  | [x], h => by
      have hx : x < 256 := h x (by simp)
      simp only [b64EncSextets, b64DecSextets]
      have h16 : (x % 4) * 16 % 16 = 0 := by omega
      rw [if_pos h16]
      simp only [Option.some.injEq, List.cons.injEq, and_true]
      omega
  | [x, y], h => by
      have hx : x < 256 := h x (by simp)
      have hy : y < 256 := h y (by simp)
      simp only [b64EncSextets, b64DecSextets]
      have h4 : (y % 16) * 4 % 4 = 0 := by omega
      rw [if_pos h4]
      simp only [Option.some.injEq, List.cons.injEq, and_true]
      omega
  | x :: y :: z :: rest, h => by
      have hx : x < 256 := h x (by simp)
      have hy : y < 256 := h y (by simp)
      have hz : z < 256 := h z (by simp)
      have ih := b64DecSextets_enc rest (fun a ha => h a (by simp [ha]))
      simp only [b64EncSextets, b64DecSextets, ih, Option.map_some]
      have e1 : x / 4 * 4 + ((x % 4) * 16 + y / 16) / 16 = x := by omega
      have e2 : ((x % 4) * 16 + y / 16) % 16 * 16 + ((y % 16) * 4 + z / 64) / 4 = y := by
        omega
      have e3 : ((y % 16) * 4 + z / 64) % 4 * 64 + z % 64 = z := by omega
      simp [e1, e2, e3]

theorem b64DecChars_map_charOfSextet : ∀ ss : List Nat, (∀ s ∈ ss, s < 64) →
    b64DecChars (ss.map charOfSextet) = some ss
  | [], _ => rfl
  | s :: rest, h => by
      have hs : s < 64 := h s (by simp)
      have ih := b64DecChars_map_charOfSextet rest (fun a ha => h a (by simp [ha]))
      simp [b64DecChars, sextetOfChar_charOfSextet s hs, ih]

/-- Base64url round trip: decoding an encoded byte list recovers it. -/
theorem b64Decode_b64Encode (b : List Nat) (h : ∀ x ∈ b, x < 256) :
    b64Decode (b64Encode b) = some b := by
  unfold b64Decode b64Encode
  rw [b64DecChars_map_charOfSextet _ (b64EncSextets_lt b h)]
  simpa using b64DecSextets_enc b h

/-! ## CSRF protocol (crates/axum-utils/src/csrf.rs)

The encrypted cookie jar's `csrf` slot is modelled as
`Option (Option CsrfToken)`: `none` when the cookie is absent,
`some none` when it is present but does not decode, and `some (some t)`
when it decodes to token `t`. -/

/-- `CsrfError` from csrf.rs. -/
inductive CsrfError where
  | mismatch
  | missing
  | decodeCookie
  | expired
  | decode
deriving DecidableEq, Repr

/-- `CsrfToken` from csrf.rs: an expiration timestamp (seconds) and a
32-byte secret. -/
structure CsrfToken where
  expiration : Int
  token : List Nat
deriving DecidableEq, Repr

/-- `CsrfToken::form_value`: base64url-encodes the secret. -/
def CsrfToken.formValue (t : CsrfToken) : List Nat :=
  b64Encode t.token

/-- `ProtectedForm` from csrf.rs: a form with a `csrf` field and an inner
payload. -/
structure ProtectedForm (T : Type) where
  csrf : List Nat
  inner : T
deriving DecidableEq, Repr

/-- The `csrf` slot of an encrypted cookie jar (see module comment). -/
abbrev CsrfCookie : Type := Option (Option CsrfToken)

/-- `CsrfToken::verify_form_value`: decodes the form value and compares it
with the token's secret. -/
def CsrfToken.verifyFormValue (t : CsrfToken) (formValue : List Nat) :
    Except CsrfError Unit :=
  match b64Decode formValue with
  | none => .error .decode
  | some bytes => if t.token = bytes then .ok () else .error .mismatch

/-- `CsrfToken::verify_expiration`: the token is valid strictly before its
expiration. -/
def CsrfToken.verifyExpiration (t : CsrfToken) (now : Int) :
    Except CsrfError CsrfToken :=
  if now < t.expiration then .ok t else .error .expired

/-- `CsrfExt::verify_form` for `PrivateCookieJar`: requires the `csrf`
cookie to be present, decodable, unexpired, and to match the decoded form
value. -/
def verifyForm {T : Type} (cookie : CsrfCookie) (now : Int)
    (form : ProtectedForm T) : Except CsrfError T :=
  match cookie with
  | none => .error .missing
  | some none => .error .decodeCookie
  | some (some token) =>
      match token.verifyExpiration now with
      | .error e => .error e
      | .ok token =>
          match token.verifyFormValue form.csrf with
          | .error e => .error e
          | .ok _ => .ok form.inner

/-- `CsrfToken::new`/`refresh`: same secret, expiration pushed `ttl`
seconds from now. -/
def CsrfToken.refresh (t : CsrfToken) (now ttl : Int) : CsrfToken :=
  { expiration := now + ttl, token := t.token }

/-- `CsrfExt::csrf_token` for `PrivateCookieJar`: reuses the decodable,
unexpired cookie's secret, generating a fresh secret (the `freshSecret`
parameter, standing for `rand::random`) otherwise; either way the returned
token expires one hour from now and is written back to the jar. -/
def csrfTokenFn (cookie : CsrfCookie) (now : Int) (freshSecret : List Nat) :
    CsrfToken × CsrfCookie :=
  let decoded : Option CsrfToken :=
    match cookie with
    | some (some t) => some t
    | _ => none
  let valid : Option CsrfToken :=
    decoded.bind fun t => match t.verifyExpiration now with
      | .ok t => some t
      | .error _ => none
  let base : CsrfToken :=
    valid.getD { expiration := now + 3600, token := freshSecret }
  let newToken := base.refresh now 3600
  (newToken, some (some newToken))

/-- C4: `verify_form` succeeds (returning the inner form) on a form
carrying `tok.formValue` iff the jar holds a decodable csrf cookie with
`tok`'s secret and `now` is strictly before that cookie's expiration;
failures are classified as Missing, DecodeCookie, Expired or Mismatch
according to which condition is violated. -/
theorem verify_form_correct {T : Type} (cookie : CsrfCookie) (now : Int)
    (tok : CsrfToken) (form : ProtectedForm T)
    (hcsrf : form.csrf = tok.formValue) (hwf : ∀ x ∈ tok.token, x < 256) :
    (verifyForm cookie now form = .ok form.inner ↔
      ∃ t, cookie = some (some t) ∧ t.token = tok.token ∧ now < t.expiration) ∧
    (cookie = none → verifyForm cookie now form = .error .missing) ∧
    (cookie = some none → verifyForm cookie now form = .error .decodeCookie) ∧
    (∀ t, cookie = some (some t) → t.expiration ≤ now →
      verifyForm cookie now form = .error .expired) ∧
    (∀ t, cookie = some (some t) → now < t.expiration → t.token ≠ tok.token →
      verifyForm cookie now form = .error .mismatch) := by
  have hdec : b64Decode form.csrf = some tok.token := by
    rw [hcsrf]; exact b64Decode_b64Encode tok.token hwf
  refine ⟨?_, ?_, ?_, ?_, ?_⟩
  · constructor
    · intro hok
      rcases cookie with _ | (_ | t)
      · simp [verifyForm] at hok
      · simp [verifyForm] at hok
      · refine ⟨t, rfl, ?_, ?_⟩
        · by_cases hexp : now < t.expiration
          · simp only [verifyForm, CsrfToken.verifyExpiration, if_pos hexp,
              CsrfToken.verifyFormValue, hdec] at hok
            by_cases heq : t.token = tok.token
            · exact heq
            · rw [if_neg heq] at hok; cases hok
          · simp [verifyForm, CsrfToken.verifyExpiration, if_neg hexp] at hok
        · by_cases hexp : now < t.expiration
          · exact hexp
          · simp [verifyForm, CsrfToken.verifyExpiration, if_neg hexp] at hok
    · rintro ⟨t, rfl, htok, hexp⟩
      simp [verifyForm, CsrfToken.verifyExpiration, if_pos hexp,
        CsrfToken.verifyFormValue, hdec, htok]
  · rintro rfl; rfl
  · rintro rfl; rfl
  · rintro t rfl hexp
    simp [verifyForm, CsrfToken.verifyExpiration, if_neg (not_lt.mpr hexp)]
  · rintro t rfl hexp hne
    simp [verifyForm, CsrfToken.verifyExpiration, if_pos hexp,
      CsrfToken.verifyFormValue, hdec, hne]

/-- Witness for C4 at a concrete jar, token and form. -/
theorem verify_form_correct_witness :
    (verifyForm (some (some ⟨9, List.replicate 32 7⟩)) 5
        ({ csrf := CsrfToken.formValue ⟨9, List.replicate 32 7⟩, inner := (0 : Nat) }) =
      .ok 0 ↔
      ∃ t, (some (some ⟨9, List.replicate 32 7⟩) : CsrfCookie) = some (some t) ∧
        t.token = (⟨9, List.replicate 32 7⟩ : CsrfToken).token ∧ (5 : Int) < t.expiration) ∧
    ((some (some ⟨9, List.replicate 32 7⟩) : CsrfCookie) = none →
      verifyForm (some (some ⟨9, List.replicate 32 7⟩)) 5
        ({ csrf := CsrfToken.formValue ⟨9, List.replicate 32 7⟩, inner := (0 : Nat) }) =
        .error .missing) ∧
    ((some (some ⟨9, List.replicate 32 7⟩) : CsrfCookie) = some none →
      verifyForm (some (some ⟨9, List.replicate 32 7⟩)) 5
        ({ csrf := CsrfToken.formValue ⟨9, List.replicate 32 7⟩, inner := (0 : Nat) }) =
        .error .decodeCookie) ∧
    (∀ t, (some (some ⟨9, List.replicate 32 7⟩) : CsrfCookie) = some (some t) →
      t.expiration ≤ 5 →
      verifyForm (some (some ⟨9, List.replicate 32 7⟩)) 5
        ({ csrf := CsrfToken.formValue ⟨9, List.replicate 32 7⟩, inner := (0 : Nat) }) =
        .error .expired) ∧
    (∀ t, (some (some ⟨9, List.replicate 32 7⟩) : CsrfCookie) = some (some t) →
      (5 : Int) < t.expiration →
      t.token ≠ (⟨9, List.replicate 32 7⟩ : CsrfToken).token →
      verifyForm (some (some ⟨9, List.replicate 32 7⟩)) 5
        ({ csrf := CsrfToken.formValue ⟨9, List.replicate 32 7⟩, inner := (0 : Nat) }) =
        .error .mismatch) :=
  verify_form_correct (some (some ⟨9, List.replicate 32 7⟩)) 5
    ⟨9, List.replicate 32 7⟩ _ rfl (by decide)

/-- C10: `csrf_token` keeps the secret of a decodable, unexpired csrf
cookie (so the returned form value equals the stored one) and pushes the
expiration one hour past now; it falls back to the fresh random secret
exactly when the cookie is absent, undecodable, or expired. -/
theorem csrf_token_refresh (cookie : CsrfCookie) (now : Int)
    (freshSecret : List Nat) :
    (∀ t, cookie = some (some t) → now < t.expiration →
      (csrfTokenFn cookie now freshSecret).1 =
        { expiration := now + 3600, token := t.token } ∧
      (csrfTokenFn cookie now freshSecret).1.formValue = t.formValue) ∧
    (cookie = none ∨ cookie = some none ∨
        (∃ t, cookie = some (some t) ∧ t.expiration ≤ now) →
      (csrfTokenFn cookie now freshSecret).1 =
        { expiration := now + 3600, token := freshSecret }) := by
  constructor
  · rintro t rfl hexp
    constructor
    · simp [csrfTokenFn, CsrfToken.verifyExpiration, if_pos hexp,
        CsrfToken.refresh]
    · simp [csrfTokenFn, CsrfToken.verifyExpiration, if_pos hexp,
        CsrfToken.refresh, CsrfToken.formValue]
  · rintro (rfl | rfl | ⟨t, rfl, hexp⟩)
    · rfl
    · rfl
    · simp [csrfTokenFn, CsrfToken.verifyExpiration, if_neg (not_lt.mpr hexp),
        CsrfToken.refresh]

/-- Witness for C10: a live cookie keeps its secret; an absent cookie gets
the fresh one. -/
theorem csrf_token_refresh_witness :
    (csrfTokenFn (some (some ⟨9, [1, 2, 3]⟩)) 5 [4, 5, 6]).1 =
      { expiration := 5 + 3600, token := [1, 2, 3] } ∧
    (csrfTokenFn none 5 [4, 5, 6]).1 =
      { expiration := 5 + 3600, token := [4, 5, 6] } :=
  ⟨((csrf_token_refresh (some (some ⟨9, [1, 2, 3]⟩)) 5 [4, 5, 6]).1
      ⟨9, [1, 2, 3]⟩ rfl (by decide)).1,
    (csrf_token_refresh none 5 [4, 5, 6]).2 (Or.inl rfl)⟩

/-! ## Introspection endpoint (crates/handlers/src/oauth2/introspection.rs)

External collaborators of the handler (client fetching, credential
verification, the token codec's `TokenType::check`, and the two active
token lookups) are passed in as parameters: the handler is embedded
faithfully, the collaborators stay abstract. -/

/-- `TokenType` from mas-data-model: the two token kinds the codec can
classify. -/
inductive TokenType where
  | accessToken
  | refreshToken
deriving DecidableEq, Repr

/-- `TokenFormatError`: the codec failed to classify a presented token
(unknown type tag or bad checksum). -/
inductive TokenFormatError where
  | invalidFormat
deriving DecidableEq, Repr

/-- `OAuthClientAuthenticationMethod` (mas-iana), restricted to the values
the handler distinguishes. -/
inductive OAuthClientAuthenticationMethod where
  | none
  | clientSecretBasic
  | clientSecretPost
  | clientSecretJwt
  | privateKeyJwt
deriving DecidableEq, Repr

/-- The client fields the introspection handler reads. -/
structure IntroClient where
  clientId : String
  tokenEndpointAuthMethod : Option OAuthClientAuthenticationMethod
deriving DecidableEq, Repr

/-- `IntrospectionRequest` (oauth2-types): the posted form. -/
structure IntrospectionRequest where
  token : String
  tokenTypeHint : Option TokenType
deriving DecidableEq, Repr

/-- `IntrospectionResponse` (oauth2-types). -/
structure IntrospectionResponse where
  active : Bool
  scope : Option (List String)
  clientId : Option String
  username : Option String
  tokenType : Option TokenType
  exp : Option Int
  iat : Option Int
  nbf : Option Int
  sub : Option String
  aud : Option String
  iss : Option String
  jti : Option String
deriving DecidableEq, Repr

/-- The `INACTIVE` constant from introspection.rs: `active: false`, every
other field absent. -/
def INACTIVE : IntrospectionResponse :=
  { active := false, scope := none, clientId := none, username := none,
    tokenType := none, exp := none, iat := none, nbf := none, sub := none,
    aud := none, iss := none, jti := none }

/-- `RouteError` from introspection.rs. -/
inductive IntroRouteError where
  | internal (msg : String)
  | clientNotFound
  | notAllowed
  | unknownToken
  | badRequest
  | clientCredentialsVerification
deriving DecidableEq, Repr

/-- `RouteError::into_response` from introspection.rs, as
(HTTP status, JSON body when one is produced). `UnknownToken` answers with
`Json(INACTIVE)`, i.e. status 200. -/
def introRouteErrorResponse : IntroRouteError → Nat × Option IntrospectionResponse
  | .internal _ => (500, none)
  | .clientNotFound => (401, none)
  | .unknownToken => (200, some INACTIVE)
  | .notAllowed => (401, none)
  | .badRequest => (400, none)
  | .clientCredentialsVerification => (401, none)

/-- Session data joined by the active-token lookups. -/
structure IntroSession where
  scope : List String
  clientId : String
  username : String
  sub : String
deriving DecidableEq, Repr

/-- Access-token columns the handler reads (`exp` is the computed
expiration). -/
structure IntroAccessToken where
  createdAt : Int
  exp : Int
deriving DecidableEq, Repr

/-- Refresh-token columns the handler reads. -/
structure IntroRefreshToken where
  createdAt : Int
deriving DecidableEq, Repr

/-- A storage lookup error; `notFound` converts to `UnknownToken`,
anything else to `Internal` (the `From` impls in introspection.rs). -/
inductive StorageLookupError where
  | notFound
  | other (msg : String)
deriving DecidableEq, Repr

/-- `From<AccessTokenLookupError> / From<RefreshTokenLookupError> for
RouteError`. -/
def lookupErrToRoute : StorageLookupError → IntroRouteError
  | .notFound => .unknownToken
  | .other m => .internal m

/-- The tail of the `post` handler: builds the `reply` from the matched
token type and the active-token lookups. -/
def introspectReply (tokenType : TokenType) (token : String)
    (lookupAccess : String → Except StorageLookupError (IntroAccessToken × IntroSession))
    (lookupRefresh : String → Except StorageLookupError (IntroRefreshToken × IntroSession)) :
    Except IntroRouteError IntrospectionResponse :=
  match tokenType with
  | .accessToken =>
    match lookupAccess token with
    | .error e => .error (lookupErrToRoute e)
    | .ok (tok, session) =>
      .ok { active := true, scope := some session.scope,
            clientId := some session.clientId,
            username := some session.username,
            tokenType := some .accessToken,
            exp := some tok.exp, iat := some tok.createdAt,
            nbf := some tok.createdAt, sub := some session.sub,
            aud := none, iss := none, jti := none }
  | .refreshToken =>
    match lookupRefresh token with
    | .error e => .error (lookupErrToRoute e)
    | .ok (tok, session) =>
      .ok { active := true, scope := some session.scope,
            clientId := some session.clientId,
            username := some session.username,
            tokenType := some .refreshToken,
            exp := none, iat := some tok.createdAt,
            nbf := some tok.createdAt, sub := some session.sub,
            aud := none, iss := none, jti := none }

/-- The `post` handler of introspection.rs. `client` is the fetched
client, `verifyOk` the outcome of `credentials.verify`, `form` the parsed
request body, `check` the token codec's `TokenType::check`, and
`lookupAccess`/`lookupRefresh` the active-token lookups. -/
def introspectPost (client : IntroClient) (verifyOk : Bool)
    (form : Option IntrospectionRequest)
    (check : String → Except TokenFormatError TokenType)
    (lookupAccess : String → Except StorageLookupError (IntroAccessToken × IntroSession))
    (lookupRefresh : String → Except StorageLookupError (IntroRefreshToken × IntroSession)) :
    Except IntroRouteError IntrospectionResponse :=
  match client.tokenEndpointAuthMethod with
  | Option.none | some .none => .error .notAllowed
  | some _ =>
    if !verifyOk then .error .clientCredentialsVerification
    else
      match form with
      | Option.none => .error .badRequest
      | some form =>
        match check form.token with
        | .error _ => .error .unknownToken
        | .ok tokenType =>
          match form.tokenTypeHint with
          | some hint =>
            if tokenType ≠ hint then .error .unknownToken
            else introspectReply tokenType form.token lookupAccess lookupRefresh
          | Option.none =>
            introspectReply tokenType form.token lookupAccess lookupRefresh

/-- The full HTTP answer of the introspection endpoint: result of the
handler pushed through `IntoResponse`. -/
def introspectResponse (client : IntroClient) (verifyOk : Bool)
    (form : Option IntrospectionRequest)
    (check : String → Except TokenFormatError TokenType)
    (lookupAccess : String → Except StorageLookupError (IntroAccessToken × IntroSession))
    (lookupRefresh : String → Except StorageLookupError (IntroRefreshToken × IntroSession)) :
    Nat × Option IntrospectionResponse :=
  match introspectPost client verifyOk form check lookupAccess lookupRefresh with
  | .ok r => (200, some r)
  | .error e => introRouteErrorResponse e

/-- C5: when the token fails classification, or its type disagrees with
the supplied hint, an otherwise well-authenticated introspection request
answers HTTP 200 with `{"active": false}` and every metadata field absent
— never an error status. -/
theorem introspection_inactive_on_unclassified (client : IntroClient)
    (m : OAuthClientAuthenticationMethod) (f : IntrospectionRequest)
    (check : String → Except TokenFormatError TokenType)
    (la : String → Except StorageLookupError (IntroAccessToken × IntroSession))
    (lr : String → Except StorageLookupError (IntroRefreshToken × IntroSession))
    (hm : client.tokenEndpointAuthMethod = some m)
    (hmne : m ≠ OAuthClientAuthenticationMethod.none) :
    ((∃ e, check f.token = .error e) →
      introspectResponse client true (some f) check la lr =
        (200, some
          { active := false, scope := none, clientId := none,
            username := none, tokenType := none, exp := none, iat := none,
            nbf := none, sub := none, aud := none, iss := none, jti := none })) ∧
    (∀ t hint, check f.token = .ok t → f.tokenTypeHint = some hint → t ≠ hint →
      introspectResponse client true (some f) check la lr =
        (200, some
          { active := false, scope := none, clientId := none,
            username := none, tokenType := none, exp := none, iat := none,
            nbf := none, sub := none, aud := none, iss := none, jti := none })) := by
  constructor
  · rintro ⟨e, he⟩
    cases m <;> first
      | exact absurd rfl hmne
      | simp [introspectResponse, introspectPost, hm, he,
          introRouteErrorResponse, INACTIVE]
  · rintro t hint ht hh hne
    cases m <;> first
      | exact absurd rfl hmne
      | simp [introspectResponse, introspectPost, hm, ht, hh, hne,
          introRouteErrorResponse, INACTIVE]

/-- Witness for C5: a concrete confidential client, an unclassifiable
token, and a hint-mismatched token. -/
theorem introspection_inactive_on_unclassified_witness :
    introspectResponse
        { clientId := "web", tokenEndpointAuthMethod := some .clientSecretBasic }
        true (some { token := "bogus", tokenTypeHint := none })
        (fun _ => .error .invalidFormat) (fun _ => .error .notFound)
        (fun _ => .error .notFound) =
      (200, some
        { active := false, scope := none, clientId := none,
          username := none, tokenType := none, exp := none, iat := none,
          nbf := none, sub := none, aud := none, iss := none, jti := none }) ∧
    introspectResponse
        { clientId := "web", tokenEndpointAuthMethod := some .clientSecretBasic }
        true (some { token := "mat_rt_x", tokenTypeHint := some .accessToken })
        (fun _ => .ok .refreshToken) (fun _ => .error .notFound)
        (fun _ => .error .notFound) =
      (200, some
        { active := false, scope := none, clientId := none,
          username := none, tokenType := none, exp := none, iat := none,
          nbf := none, sub := none, aud := none, iss := none, jti := none }) :=
  ⟨(introspection_inactive_on_unclassified _ .clientSecretBasic _ _ _ _
      rfl (by decide)).1 ⟨.invalidFormat, rfl⟩,
    (introspection_inactive_on_unclassified _ .clientSecretBasic _ _ _ _
      rfl (by decide)).2 .refreshToken .accessToken rfl rfl (by decide)⟩

/-- C6: a client whose `token_endpoint_auth_method` is `none` or absent is
rejected with HTTP 401 before the token is looked at: the outcome is
`NotAllowed` whatever the form, codec and lookups say. -/
theorem introspection_rejects_public_clients (client : IntroClient)
    (hpub : client.tokenEndpointAuthMethod = none ∨
      client.tokenEndpointAuthMethod = some .none) :
    ∀ (verifyOk : Bool) (form : Option IntrospectionRequest)
      (check : String → Except TokenFormatError TokenType)
      (la : String → Except StorageLookupError (IntroAccessToken × IntroSession))
      (lr : String → Except StorageLookupError (IntroRefreshToken × IntroSession)),
      introspectPost client verifyOk form check la lr = .error .notAllowed ∧
      introspectResponse client verifyOk form check la lr = (401, none) := by
  intro verifyOk form check la lr
  rcases hpub with h | h <;>
    simp [introspectPost, introspectResponse, h, introRouteErrorResponse]

/-- Witness for C6 at a concrete public client and request. -/
theorem introspection_rejects_public_clients_witness :
    introspectPost { clientId := "pub", tokenEndpointAuthMethod := some .none }
        true (some { token := "mat_at_y", tokenTypeHint := none })
        (fun _ => .ok .accessToken) (fun _ => .error .notFound)
        (fun _ => .error .notFound) = .error .notAllowed ∧
    introspectResponse { clientId := "pub", tokenEndpointAuthMethod := some .none }
        true (some { token := "mat_at_y", tokenTypeHint := none })
        (fun _ => .ok .accessToken) (fun _ => .error .notFound)
        (fun _ => .error .notFound) = (401, none) :=
  introspection_rejects_public_clients
    { clientId := "pub", tokenEndpointAuthMethod := some .none }
    (Or.inr rfl) true (some { token := "mat_at_y", tokenTypeHint := none })
    (fun _ => .ok .accessToken) (fun _ => .error .notFound)
    (fun _ => .error .notFound)

/-! ## Authorization-grant loading
(crates/core/src/storage/oauth2/authorization_grant.rs)

The `GrantLookup` row is the SQL join produced by `get_grant_by_id` /
`lookup_grant_by_code`; `GrantLookup.tryInto` is its `TryInto` impl.
External string parsers (`Scope`, `Url`, `ResponseMode` from oauth2-types
and the url crate) are modelled concretely; only their success/failure
feeds the claims. -/

/-- `Authentication` (mas-data-model). -/
structure Authentication where
  id : Int
  createdAt : Int
deriving DecidableEq, Repr

/-- `User` (mas-data-model), with the `sub` built by the loader. -/
structure GUser where
  id : Int
  username : String
  sub : String
deriving DecidableEq, Repr

/-- `BrowserSession` (mas-data-model). -/
structure BrowserSession where
  id : Int
  user : GUser
  createdAt : Int
  lastAuthentication : Option Authentication
deriving DecidableEq, Repr

/-- `Session` (mas-data-model): the per-grant OAuth 2.0 session. -/
structure OSession where
  id : Int
  clientId : String
  browserSession : BrowserSession
  scope : List String
deriving DecidableEq, Repr

/-- `AuthorizationGrantStage` (mas-data-model). -/
inductive AuthorizationGrantStage where
  | pending
  | fulfilled (session : OSession) (fulfilledAt : Int)
  | exchanged (session : OSession) (fulfilledAt : Int) (exchangedAt : Int)
  | cancelled (cancelledAt : Int)
deriving DecidableEq, Repr

/-- `AuthorizationGrantStage::is_pending`. -/
def AuthorizationGrantStage.isPending : AuthorizationGrantStage → Bool
  | .pending => true
  | _ => false

/-- Whether a stage carries an OAuth session (Fulfilled and Exchanged do).
-/
def AuthorizationGrantStage.hasSession : AuthorizationGrantStage → Bool
  | .fulfilled _ _ => true
  | .exchanged _ _ _ => true
  | _ => false

/-- `CodeChallengeMethod` (oauth2-types pkce). -/
inductive CodeChallengeMethod where
  | plain
  | s256
deriving DecidableEq, Repr

/-- `Pkce` (mas-data-model). -/
structure Pkce where
  challengeMethod : CodeChallengeMethod
  challenge : String
deriving DecidableEq, Repr

/-- `AuthorizationCode` (mas-data-model). -/
structure AuthorizationCode where
  code : String
  pkce : Option Pkce
deriving DecidableEq, Repr

/-- `ResponseMode` (oauth2-types requests). -/
inductive ResponseMode where
  | query
  | fragment
  | formPost
deriving DecidableEq, Repr

/-- `AuthorizationGrant` (mas-data-model). `requiresConsent` is read by
the completion handler; the loader under verification predates the column
and leaves it false. -/
structure AuthorizationGrant where
  id : Int
  stage : AuthorizationGrantStage
  clientId : String
  code : Option AuthorizationCode
  acrValues : Option String
  scope : List String
  state : Option String
  nonce : Option String
  maxAge : Option Nat
  responseMode : ResponseMode
  redirectUri : String
  createdAt : Int
  responseTypeToken : Bool
  responseTypeIdToken : Bool
  requiresConsent : Bool
deriving DecidableEq, Repr

/-- The `GrantLookup` row selected by `get_grant_by_id` and
`lookup_grant_by_code`. -/
structure GrantLookup where
  grantId : Int
  grantCreatedAt : Int
  grantCancelledAt : Option Int
  grantFulfilledAt : Option Int
  grantExchangedAt : Option Int
  grantScope : String
  grantState : Option String
  grantRedirectUri : String
  grantResponseMode : String
  grantNonce : Option String
  grantMaxAge : Option Int
  grantAcrValues : Option String
  grantResponseTypeCode : Bool
  grantResponseTypeToken : Bool
  grantResponseTypeIdToken : Bool
  grantCode : Option String
  grantCodeChallenge : Option String
  grantCodeChallengeMethod : Option String
  clientId : String
  sessionId : Option Int
  userSessionId : Option Int
  userSessionCreatedAt : Option Int
  userId : Option Int
  userUsername : Option String
  userSessionLastAuthenticationId : Option Int
  userSessionLastAuthenticationCreatedAt : Option Int
deriving DecidableEq, Repr

/-- `DatabaseInconsistencyError` (mas-storage): a unit error marking an
impossible row combination. -/
inductive DatabaseInconsistencyError where
  | mk
deriving DecidableEq, Repr

/-- Space-splitting over the character list (structural, so that concrete
rows evaluate inside the kernel). -/
def splitSpaces : List Char → List Char → List (List Char)
  | [], acc => [acc.reverse]
  | c :: rest, acc =>
      if c = ' ' then acc.reverse :: splitSpaces rest []
      else splitSpaces rest (c :: acc)

/-- Modelled from the spec: `Scope::from_str` (oauth2-types, not under
verification) splits on spaces and rejects empty scope tokens. -/
def parseScope (s : String) : Option (List String) :=
  let parts := (splitSpaces s.data []).map String.mk
  if parts.all (fun p => p != "") then some parts else none

/-- Modelled from the spec: `Url::parse` (url crate, not under
verification), kept as the identity on non-empty strings. -/
def parseUrl (s : String) : Option String :=
  if s = "" then none else some s

/-- `ResponseMode::from_str` (oauth2-types, modelled from its three
values). -/
def parseResponseMode : String → Option ResponseMode
  | "query" => some .query
  | "fragment" => some .fragment
  | "form_post" => some .formPost
  | _ => none

/-- Scope parsing step of `try_into`. -/
def scopeOfRow (row : GrantLookup) :
    Except DatabaseInconsistencyError (List String) :=
  match parseScope row.grantScope with
  | some s => .ok s
  | none => .error .mk

/-- `last_authentication` assembly step of `try_into`. -/
def lastAuthOfRow (row : GrantLookup) :
    Except DatabaseInconsistencyError (Option Authentication) :=
  match row.userSessionLastAuthenticationId,
      row.userSessionLastAuthenticationCreatedAt with
  | some i, some c => .ok (some { id := i, createdAt := c })
  | none, none => .ok none
  | _, _ => .error .mk

/-- `session` assembly step of `try_into`: all six joined columns present,
or all absent. -/
def sessionOfRow (row : GrantLookup) (scope : List String)
    (lastAuthentication : Option Authentication) :
    Except DatabaseInconsistencyError (Option OSession) :=
  match row.sessionId, row.userSessionId, row.userSessionCreatedAt,
      row.userId, row.userUsername, lastAuthentication with
  | some sid, some usid, some uscreated, some uid, some uname, la =>
      .ok (some
        { id := sid, clientId := row.clientId,
          browserSession :=
            { id := usid,
              user := { id := uid, username := uname, sub := s!"fake-sub-{uid}" },
              createdAt := uscreated, lastAuthentication := la },
          scope := scope })
  | none, none, none, none, none, none => .ok none
  | _, _, _, _, _, _ => .error .mk

/-- `stage` computation of `try_into`: the four-row table of §4.6. -/
def stageOfRow (fulfilledAt exchangedAt cancelledAt : Option Int)
    (session : Option OSession) :
    Except DatabaseInconsistencyError AuthorizationGrantStage :=
  match fulfilledAt, exchangedAt, cancelledAt, session with
  | none, none, none, none => .ok .pending
  | some f, none, none, some s => .ok (.fulfilled s f)
  | some f, some e, none, some s => .ok (.exchanged s f e)
  | none, none, some c, none => .ok (.cancelled c)
  | _, _, _, _ => .error .mk

/-- `pkce` assembly step of `try_into`. -/
def pkceOfRow (row : GrantLookup) :
    Except DatabaseInconsistencyError (Option Pkce) :=
  match row.grantCodeChallenge, row.grantCodeChallengeMethod with
  | some ch, some m =>
      if m = "plain" then .ok (some { challengeMethod := .plain, challenge := ch })
      else if m = "S256" then .ok (some { challengeMethod := .s256, challenge := ch })
      else .error .mk
  | none, none => .ok none
  | _, _ => .error .mk

/-- `code` assembly step of `try_into`. -/
def codeOfRow (row : GrantLookup) (pkce : Option Pkce) :
    Except DatabaseInconsistencyError (Option AuthorizationCode) :=
  match row.grantResponseTypeCode, row.grantCode, pkce with
  | false, none, none => .ok none
  | true, some c, p => .ok (some { code := c, pkce := p })
  | _, _, _ => .error .mk

/-- `TryInto<AuthorizationGrant> for GrantLookup`. Note the source leaves
`max_age` as `None` (a marked TODO), whatever `grant_max_age` holds. -/
def GrantLookup.tryInto (row : GrantLookup) :
    Except DatabaseInconsistencyError AuthorizationGrant := do
  let scope ← scopeOfRow row
  let lastAuthentication ← lastAuthOfRow row
  let session ← sessionOfRow row scope lastAuthentication
  let stage ← stageOfRow row.grantFulfilledAt row.grantExchangedAt
    row.grantCancelledAt session
  let pkce ← pkceOfRow row
  let code ← codeOfRow row pkce
  let redirectUri ← match parseUrl row.grantRedirectUri with
    | some u => Except.ok u
    | none => Except.error .mk
  let responseMode ← match parseResponseMode row.grantResponseMode with
    | some r => Except.ok r
    | none => Except.error .mk
  pure
    { id := row.grantId, stage := stage, clientId := row.clientId,
      code := code,
      acrValues := row.grantAcrValues, scope := scope,
      state := row.grantState, nonce := row.grantNonce,
      maxAge := none,
      responseMode := responseMode, redirectUri := redirectUri,
      createdAt := row.grantCreatedAt,
      responseTypeToken := row.grantResponseTypeToken,
      responseTypeIdToken := row.grantResponseTypeIdToken,
      requiresConsent := false }

/-- The four stage tuples of §4.6, read off the raw row (with session
presence given by `oauth2_session_id`). -/
def grantTupleOk (row : GrantLookup) : Prop :=
  (row.grantCancelledAt = none ∧ row.grantFulfilledAt = none ∧
    row.grantExchangedAt = none ∧ row.sessionId = none) ∨
  (row.grantCancelledAt = none ∧ row.grantFulfilledAt ≠ none ∧
    row.grantExchangedAt = none ∧ row.sessionId ≠ none) ∨
  (row.grantCancelledAt = none ∧ row.grantFulfilledAt ≠ none ∧
    row.grantExchangedAt ≠ none ∧ row.sessionId ≠ none) ∨
  (row.grantCancelledAt ≠ none ∧ row.grantFulfilledAt = none ∧
    row.grantExchangedAt = none ∧ row.sessionId = none)

instance (row : GrantLookup) : Decidable (grantTupleOk row) := by
  unfold grantTupleOk; infer_instance

theorem stageOfRow_ok_cases (f e c : Option Int) (s : Option OSession)
    (st : AuthorizationGrantStage) (h : stageOfRow f e c s = .ok st) :
    (c = none ∧ f = none ∧ e = none ∧ s = none ∧ st = .pending) ∨
    (∃ sess fv, c = none ∧ f = some fv ∧ e = none ∧ s = some sess ∧
      st = .fulfilled sess fv) ∨
    (∃ sess fv ev, c = none ∧ f = some fv ∧ e = some ev ∧ s = some sess ∧
      st = .exchanged sess fv ev) ∨
    (∃ cv, c = some cv ∧ f = none ∧ e = none ∧ s = none ∧
      st = .cancelled cv) := by
  cases f <;> cases e <;> cases c <;> cases s <;> simp_all [stageOfRow]

theorem sessionOfRow_isSome (row : GrantLookup) (scope : List String)
    (la : Option Authentication) (s : Option OSession)
    (h : sessionOfRow row scope la = .ok s) :
    s.isSome = row.sessionId.isSome := by
  unfold sessionOfRow at h
  split at h
  · cases h; simp_all
  · cases h; simp_all
  · cases h

theorem tryInto_ok_parts (row : GrantLookup) (g : AuthorizationGrant)
    (h : row.tryInto = .ok g) :
    g.maxAge = none ∧
    ∃ scope la session,
      sessionOfRow row scope la = .ok session ∧
      stageOfRow row.grantFulfilledAt row.grantExchangedAt
        row.grantCancelledAt session = .ok g.stage := by
  unfold GrantLookup.tryInto at h
  rcases hsc : scopeOfRow row with e | scope
  · simp [hsc, bind, Except.bind] at h
  simp only [hsc, bind, Except.bind] at h
  rcases hla : lastAuthOfRow row with e | la
  · simp [hla] at h
  simp only [hla] at h
  rcases hsess : sessionOfRow row scope la with e | session
  · simp [hsess] at h
  simp only [hsess] at h
  rcases hstage : stageOfRow row.grantFulfilledAt row.grantExchangedAt
      row.grantCancelledAt session with e | st
  · simp [hstage] at h
  simp only [hstage] at h
  rcases hpk : pkceOfRow row with e | pk
  · simp [hpk] at h
  simp only [hpk] at h
  rcases hcode : codeOfRow row pk with e | code
  · simp [hcode] at h
  simp only [hcode] at h
  rcases hurl : parseUrl row.grantRedirectUri with _ | uri
  · simp [hurl] at h
  simp only [hurl] at h
  rcases hmode : parseResponseMode row.grantResponseMode with _ | mode
  · simp [hmode] at h
  simp only [hmode, pure, Except.pure] at h
  cases h
  exact ⟨rfl, scope, la, session, hsess, hstage⟩

theorem tryInto_ok_table (row : GrantLookup) (g : AuthorizationGrant)
    (h : row.tryInto = .ok g) :
    (row.grantCancelledAt = none ∧ row.grantFulfilledAt = none ∧
      row.grantExchangedAt = none ∧ row.sessionId = none ∧
      g.stage = .pending) ∨
    (∃ sess fv, row.grantCancelledAt = none ∧
      row.grantFulfilledAt = some fv ∧ row.grantExchangedAt = none ∧
      row.sessionId.isSome ∧ g.stage = .fulfilled sess fv) ∨
    (∃ sess fv ev, row.grantCancelledAt = none ∧
      row.grantFulfilledAt = some fv ∧ row.grantExchangedAt = some ev ∧
      row.sessionId.isSome ∧ g.stage = .exchanged sess fv ev) ∨
    (∃ cv, row.grantCancelledAt = some cv ∧ row.grantFulfilledAt = none ∧
      row.grantExchangedAt = none ∧ row.sessionId = none ∧
      g.stage = .cancelled cv) := by
  obtain ⟨-, scope, la, session, hsess, hstage⟩ := tryInto_ok_parts row g h
  have hlink := sessionOfRow_isSome row scope la session hsess
  rcases stageOfRow_ok_cases _ _ _ _ _ hstage with
      ⟨hc, hf, he, hs, hst⟩ | ⟨sess, fv, hc, hf, he, hs, hst⟩ |
      ⟨sess, fv, ev, hc, hf, he, hs, hst⟩ | ⟨cv, hc, hf, he, hs, hst⟩
  · left
    refine ⟨hc, hf, he, ?_, hst⟩
    rw [hs] at hlink
    simpa using hlink.symm
  · right; left
    refine ⟨sess, fv, hc, hf, he, ?_, hst⟩
    rw [hs] at hlink
    simpa using hlink.symm
  · right; right; left
    refine ⟨sess, fv, ev, hc, hf, he, ?_, hst⟩
    rw [hs] at hlink
    simpa using hlink.symm
  · right; right; right
    refine ⟨cv, hc, hf, he, ?_, hst⟩
    rw [hs] at hlink
    simpa using hlink.symm

/-- C1: every grant row accepted by the loader matches exactly one of the
four §4.6 stage tuples — (cancelled, fulfilled, exchanged, session) =
(—,—,—,—) ↦ Pending, (—,set,—,set) ↦ Fulfilled, (—,set,set,set) ↦
Exchanged, (set,—,—,—) ↦ Cancelled — any other tuple is rejected with
`DatabaseInconsistencyError`, and the computed stage carries a session
exactly when the row does. -/
theorem grant_stage_table :
    (∀ (row : GrantLookup) (g : AuthorizationGrant), row.tryInto = .ok g →
      (row.grantCancelledAt = none ∧ row.grantFulfilledAt = none ∧
        row.grantExchangedAt = none ∧ row.sessionId = none ∧
        g.stage = .pending) ∨
      (∃ sess fv, row.grantCancelledAt = none ∧
        row.grantFulfilledAt = some fv ∧ row.grantExchangedAt = none ∧
        row.sessionId.isSome ∧ g.stage = .fulfilled sess fv) ∨
      (∃ sess fv ev, row.grantCancelledAt = none ∧
        row.grantFulfilledAt = some fv ∧ row.grantExchangedAt = some ev ∧
        row.sessionId.isSome ∧ g.stage = .exchanged sess fv ev) ∨
      (∃ cv, row.grantCancelledAt = some cv ∧ row.grantFulfilledAt = none ∧
        row.grantExchangedAt = none ∧ row.sessionId = none ∧
        g.stage = .cancelled cv)) ∧
    (∀ row : GrantLookup, ¬ grantTupleOk row → row.tryInto = .error .mk) ∧
    (∀ (row : GrantLookup) (g : AuthorizationGrant), row.tryInto = .ok g →
      g.stage.hasSession = row.sessionId.isSome) := by
  refine ⟨tryInto_ok_table, ?_, ?_⟩
  · intro row hno
    rcases htry : row.tryInto with e | g
    · cases e; rfl
    · exfalso
      apply hno
      unfold grantTupleOk
      rcases tryInto_ok_table row g htry with
          ⟨hc, hf, he, hs, _⟩ | ⟨_, _, hc, hf, he, hs, _⟩ |
          ⟨_, _, _, hc, hf, he, hs, _⟩ | ⟨_, hc, hf, he, hs, _⟩
      · exact Or.inl ⟨hc, hf, he, hs⟩
      · exact Or.inr (Or.inl ⟨hc, by simp [hf], he, by
          simpa [Option.isSome_iff_ne_none] using hs⟩)
      · exact Or.inr (Or.inr (Or.inl ⟨hc, by simp [hf], by simp [he], by
          simpa [Option.isSome_iff_ne_none] using hs⟩))
      · exact Or.inr (Or.inr (Or.inr ⟨by simp [hc], hf, he, hs⟩))
  · intro row g htry
    rcases tryInto_ok_table row g htry with
        ⟨_, _, _, hs, hst⟩ | ⟨_, _, _, _, _, hs, hst⟩ |
        ⟨_, _, _, _, _, _, hs, hst⟩ | ⟨_, _, _, _, hs, hst⟩ <;>
      simp [hst, hs, AuthorizationGrantStage.hasSession]

/-- Witness for C1: a fulfilled-but-sessionless row is rejected, and a
consistent pending row's stage carries no session. -/
theorem grant_stage_table_witness :
    GrantLookup.tryInto
      { grantId := 2, grantCreatedAt := 0, grantCancelledAt := none,
        grantFulfilledAt := some 5, grantExchangedAt := none,
        grantScope := "openid", grantState := none,
        grantRedirectUri := "https://app/cb", grantResponseMode := "query",
        grantNonce := none, grantMaxAge := none, grantAcrValues := none,
        grantResponseTypeCode := false, grantResponseTypeToken := false,
        grantResponseTypeIdToken := false, grantCode := none,
        grantCodeChallenge := none, grantCodeChallengeMethod := none,
        clientId := "web", sessionId := none, userSessionId := none,
        userSessionCreatedAt := none, userId := none, userUsername := none,
        userSessionLastAuthenticationId := none,
        userSessionLastAuthenticationCreatedAt := none } = .error .mk ∧
    AuthorizationGrantStage.hasSession
      (AuthorizationGrant.stage
        { id := 1, stage := .pending, clientId := "web", code := none,
          acrValues := none,
          scope := ["openid"], state := none, nonce := none, maxAge := none,
          responseMode := .query, redirectUri := "https://app/cb",
          createdAt := 0, responseTypeToken := false,
          responseTypeIdToken := false, requiresConsent := false }) =
    Option.isSome (GrantLookup.sessionId
      { grantId := 1, grantCreatedAt := 0, grantCancelledAt := none,
        grantFulfilledAt := none, grantExchangedAt := none,
        grantScope := "openid", grantState := none,
        grantRedirectUri := "https://app/cb", grantResponseMode := "query",
        grantNonce := none, grantMaxAge := none, grantAcrValues := none,
        grantResponseTypeCode := false, grantResponseTypeToken := false,
        grantResponseTypeIdToken := false, grantCode := none,
        grantCodeChallenge := none, grantCodeChallengeMethod := none,
        clientId := "web", sessionId := none, userSessionId := none,
        userSessionCreatedAt := none, userId := none, userUsername := none,
        userSessionLastAuthenticationId := none,
        userSessionLastAuthenticationCreatedAt := none }) :=
  ⟨grant_stage_table.2.1 _ (by decide),
    grant_stage_table.2.2
      { grantId := 1, grantCreatedAt := 0, grantCancelledAt := none,
        grantFulfilledAt := none, grantExchangedAt := none,
        grantScope := "openid", grantState := none,
        grantRedirectUri := "https://app/cb", grantResponseMode := "query",
        grantNonce := none, grantMaxAge := none, grantAcrValues := none,
        grantResponseTypeCode := false, grantResponseTypeToken := false,
        grantResponseTypeIdToken := false, grantCode := none,
        grantCodeChallenge := none, grantCodeChallengeMethod := none,
        clientId := "web", sessionId := none, userSessionId := none,
        userSessionCreatedAt := none, userId := none, userUsername := none,
        userSessionLastAuthenticationId := none,
        userSessionLastAuthenticationCreatedAt := none }
      { id := 1, stage := .pending, clientId := "web", code := none,
        acrValues := none,
        scope := ["openid"], state := none, nonce := none, maxAge := none,
        responseMode := .query, redirectUri := "https://app/cb",
        createdAt := 0, responseTypeToken := false,
        responseTypeIdToken := false, requiresConsent := false }
      (by decide)⟩

/-! ## Grant-completion orchestrator
(crates/handlers/src/oauth2/authorization/complete.rs)

The transaction is modelled by threading a `Db` record: `complete`
returns, besides the handler's result, the state the database holds after
the request — the original one when the transaction is dropped (rolled
back) or committed without writes, the updated one when it commits writes.
Storage operations reached only from the fulfillment path (`derive_session`,
`fulfill_grant`, `add_access_token`, `add_refresh_token`) and the
freshness helpers of mas-data-model are not under src/ and are modelled
from the spec, as documented on each. `now`, `accessTokenStr` and
`refreshTokenStr` stand for the clock and the two freshly generated token
strings. -/

/-- `GrantCompletionError` from complete.rs. -/
inductive GrantCompletionError where
  | internal (msg : String)
  | anyhow (msg : String)
  | notPending
  | requiresReauth
  | requiresConsent
deriving DecidableEq, Repr

/-- `RouteError` of complete.rs, and `RouteError::into_response`'s status
code: `NotPending` answers 400, internal errors 500. -/
def completeRouteStatus : GrantCompletionError → Nat
  | .notPending => 400
  | _ => 500

/-- `AccessTokenResponse` (oauth2-types), restricted to the fields this
handler sets. -/
structure AccessTokenResponse where
  accessToken : String
  tokenType : String
  expiresIn : Option Int
  refreshToken : Option String
deriving DecidableEq, Repr

/-- Modelled from the spec: `AccessTokenResponse::new` (oauth2-types, not
under src/) carries the token with `token_type = Bearer` and no optional
fields. -/
def AccessTokenResponse.new (accessToken : String) : AccessTokenResponse :=
  { accessToken := accessToken, tokenType := "Bearer",
    expiresIn := none, refreshToken := none }

/-- `AccessTokenResponse::with_expires_in`. -/
def AccessTokenResponse.withExpiresIn (r : AccessTokenResponse) (ttl : Int) :
    AccessTokenResponse :=
  { r with expiresIn := some ttl }

/-- `AccessTokenResponse::with_refresh_token`. -/
def AccessTokenResponse.withRefreshToken (r : AccessTokenResponse)
    (t : String) : AccessTokenResponse :=
  { r with refreshToken := some t }

/-- `AuthorizationResponse` (oauth2-types), restricted to the fields this
handler sets: the code and the optional token response. -/
structure AuthorizationResponseParams where
  code : Option String
  response : Option AccessTokenResponse
deriving DecidableEq, Repr

/-- An `oauth2_access_tokens` row as written by `add_access_token`. -/
structure AccessTokenRow where
  id : Int
  sessionId : Int
  token : String
  createdAt : Int
  expiresAfter : Int
deriving DecidableEq, Repr

/-- An `oauth2_refresh_tokens` row as written by `add_refresh_token`. -/
structure RefreshTokenRow where
  id : Int
  sessionId : Int
  accessTokenId : Int
  token : String
deriving DecidableEq, Repr

/-- The slice of the database the completion path touches. -/
structure Db where
  sessions : List OSession
  accessTokens : List AccessTokenRow
  refreshTokens : List RefreshTokenRow
  grantFulfillments : List (Int × Int × Int)
  consents : List (Int × String × List String)
  nextId : Int
deriving DecidableEq, Repr

/-- Modelled from the spec: `fetch_client_consent` (mas-storage, not under
src/) returns the scope set the user has granted the client. -/
def fetchClientConsent (db : Db) (user : GUser) (clientId : String) :
    List String :=
  (db.consents.filter fun c => c.1 == user.id && c.2.1 == clientId).flatMap
    fun c => c.2.2

/-- `Scope::difference` (BTreeSet difference): scopes of `a` not in `b`. -/
def scopeDifference (a b : List String) : List String :=
  a.filter fun s => !(b.contains s)

/-- `str::starts_with`, structurally on the character lists. -/
def listIsPrefixOf : List Char → List Char → Bool
  | [], _ => true
  | _ :: _, [] => false
  | p :: ps, c :: cs => p == c && listIsPrefixOf ps cs

def strStartsWith (s p : String) : Bool :=
  listIsPrefixOf p.data s.data

/-- Modelled from the spec: `AuthorizationGrant::max_auth_time`
(mas-data-model, not under src/) — §4.8 step 3 constrains freshness only
when `max_age` is set, to authentications at or after `now - max_age`. -/
def grantMaxAuthTime (grant : AuthorizationGrant) (now : Int) : Option Int :=
  grant.maxAge.map fun m => now - m

/-- Modelled from the spec: `BrowserSession::was_authenticated_after`
(mas-data-model, not under src/) — a session is fresh for an `after` bound
iff its last authentication is at or after it; with no bound every session
passes. -/
def wasAuthenticatedAfter (bs : BrowserSession) (after : Option Int) : Bool :=
  match after with
  | none => true
  | some t =>
      match bs.lastAuthentication with
      | none => false
      | some a => a.createdAt ≥ t

/-- Modelled from the spec: `derive_session` (mas-storage, not under
src/) inserts an OAuth session row for the grant's client, browser
session and scope. -/
def deriveSession (db : Db) (grant : AuthorizationGrant)
    (bs : BrowserSession) : OSession × Db :=
  let session : OSession :=
    { id := db.nextId, clientId := grant.clientId,
      browserSession := bs, scope := grant.scope }
  let db1 : Db :=
    { db with sessions := session :: db.sessions, nextId := db.nextId + 1 }
  (session, db1)

/-- Modelled from the spec: `fulfill_grant` (a TODO stub in src/) links
the OAuth session and sets `fulfilled_at`, moving the grant to Fulfilled.
-/
def fulfillGrant (db : Db) (grant : AuthorizationGrant) (session : OSession)
    (now : Int) : AuthorizationGrant × Db :=
  ({ grant with stage := .fulfilled session now },
    { db with grantFulfillments :=
        (grant.id, session.id, now) :: db.grantFulfillments })

/-- Modelled from the spec: `add_access_token` (mas-storage, not under
src/) persists a token row with the given TTL. -/
def addAccessToken (db : Db) (session : OSession) (token : String)
    (ttl now : Int) : AccessTokenRow × Db :=
  let row : AccessTokenRow :=
    { id := db.nextId, sessionId := session.id, token := token,
      createdAt := now, expiresAfter := ttl }
  let db1 : Db :=
    { db with
      accessTokens := row :: db.accessTokens,
      nextId := db.nextId + 1 }
  (row, db1)

/-- Modelled from the spec: `add_refresh_token` (mas-storage, not under
src/) persists a refresh token bound to the access token. -/
def addRefreshToken (db : Db) (session : OSession)
    (accessToken : AccessTokenRow) (token : String) :
    RefreshTokenRow × Db :=
  let row : RefreshTokenRow :=
    { id := db.nextId, sessionId := session.id,
      accessTokenId := accessToken.id, token := token }
  let db1 : Db :=
    { db with
      refreshTokens := row :: db.refreshTokens,
      nextId := db.nextId + 1 }
  (row, db1)

/-- The `complete` orchestrator of complete.rs. -/
def complete (grant : AuthorizationGrant) (browserSession : BrowserSession)
    (db : Db) (now : Int) (accessTokenStr refreshTokenStr : String) :
    Except GrantCompletionError AuthorizationResponseParams × Db :=
  if !grant.stage.isPending then (.error .notPending, db)
  else if !(wasAuthenticatedAfter browserSession (grantMaxAuthTime grant now))
  then (.error .requiresReauth, db)
  else
    let currentConsent :=
      fetchClientConsent db browserSession.user grant.clientId
    let lacksConsent := (scopeDifference grant.scope currentConsent).any
      fun s => !strStartsWith s "urn:matrix:device:"
    if lacksConsent || grant.requiresConsent then
      (.error .requiresConsent, db)
    else
      let (session, db1) := deriveSession db grant browserSession
      let (grant1, db2) := fulfillGrant db1 grant session now
      let params0 : AuthorizationResponseParams :=
        { code := none, response := none }
      let params1 := match grant1.code with
        | some c => { params0 with code := some c.code }
        | none => params0
      let (params2, db3) :=
        if grant1.responseTypeToken then
          let ttl : Int := 300
          let (accessToken, dbA) :=
            addAccessToken db2 session accessTokenStr ttl now
          let (_refreshToken, dbB) :=
            addRefreshToken dbA session accessToken refreshTokenStr
          let resp := ((AccessTokenResponse.new
            accessTokenStr).withExpiresIn ttl).withRefreshToken
            refreshTokenStr
          ({ params1 with response := some resp }, dbB)
        else (params1, db2)
      if grant1.responseTypeIdToken then
        (.error (.anyhow "id tokens are not implemented yet"), db)
      else (.ok params2, db3)

/-- The outcomes `get` can answer with. -/
inductive CompletionOutcome where
  | callback (params : AuthorizationResponseParams)
  | redirectLogin (continueGrant : Int)
  | redirectReauth (continueGrant : Int)
  | redirectConsent (grantId : Int)
  | httpError (status : Nat)
deriving DecidableEq, Repr

/-- The `match complete(...)` dispatch of the `get` handler of
complete.rs, folded through `RouteError::into_response`. -/
def getDispatch (grantId : Int)
    (res : Except GrantCompletionError AuthorizationResponseParams) :
    CompletionOutcome :=
  match res with
  | .ok p => .callback p
  | .error .requiresReauth => .redirectReauth grantId
  | .error .requiresConsent => .redirectConsent grantId
  | .error e => .httpError (completeRouteStatus e)

/-- The `get` handler of complete.rs: no browser session redirects to
Login with the grant continuation; otherwise `complete` runs and its
outcome is dispatched. -/
def getHandler (grantId : Int) (maybeSession : Option BrowserSession)
    (grant : AuthorizationGrant) (db : Db) (now : Int)
    (accessTokenStr refreshTokenStr : String) : CompletionOutcome × Db :=
  match maybeSession with
  | none => (.redirectLogin grantId, db)
  | some s =>
      let (res, db1) := complete grant s db now accessTokenStr refreshTokenStr
      (getDispatch grantId res, db1)

/-- C7: a grant that is not Pending makes `complete` fail with
`NotPending`, which `get` answers with HTTP 400; and none of the
`NotPending`, `RequiresReauth`, `RequiresConsent` outcomes changes the
database — no session, fulfillment or token is persisted. -/
theorem complete_error_handling :
    (∀ (grant : AuthorizationGrant) (bs : BrowserSession) (db : Db)
        (now : Int) (a r : String) (gid : Int),
      grant.stage.isPending = false →
        (complete grant bs db now a r).1 = .error .notPending ∧
        (complete grant bs db now a r).2 = db ∧
        getDispatch gid (complete grant bs db now a r).1 =
          .httpError 400) ∧
    (∀ (grant : AuthorizationGrant) (bs : BrowserSession) (db : Db)
        (now : Int) (a r : String) (e : GrantCompletionError),
      (complete grant bs db now a r).1 = .error e →
      e = .notPending ∨ e = .requiresReauth ∨ e = .requiresConsent →
      (complete grant bs db now a r).2 = db) := by
  constructor
  · intro grant bs db now a r gid h
    simp [complete, h, getDispatch, completeRouteStatus]
  · intro grant bs db now a r e h htriple
    by_cases h1 : grant.stage.isPending
    · by_cases h2 : wasAuthenticatedAfter bs (grantMaxAuthTime grant now)
      · by_cases h3 : ((scopeDifference grant.scope
            (fetchClientConsent db bs.user grant.clientId)).any
            fun s => !strStartsWith s "urn:matrix:device:") ||
            grant.requiresConsent
        · simp [complete, h1, h2, h3]
        · by_cases h4 : grant.responseTypeIdToken
          · simp [complete, h1, h2, h3, h4, fulfillGrant, deriveSession]
          · exfalso
            simp [complete, h1, h2, h3, h4, fulfillGrant,
              deriveSession] at h
      · simp [complete, h1, h2]
    · simp [complete, h1]

/-- Witness for C7 at a concrete cancelled grant. -/
theorem complete_error_handling_witness :
    (complete
        { id := 1, stage := .cancelled 4, clientId := "web", code := none,
          acrValues := none, scope := ["openid"], state := none,
          nonce := none, maxAge := none, responseMode := .query,
          redirectUri := "https://app/cb", createdAt := 0,
          responseTypeToken := false, responseTypeIdToken := false,
          requiresConsent := false }
        { id := 10, user := { id := 7, username := "alice", sub := "s7" },
          createdAt := 0, lastAuthentication := none }
        { sessions := [], accessTokens := [], refreshTokens := [],
          grantFulfillments := [], consents := [], nextId := 1 }
        5 "at" "rt").1 = .error .notPending ∧
    (complete
        { id := 1, stage := .cancelled 4, clientId := "web", code := none,
          acrValues := none, scope := ["openid"], state := none,
          nonce := none, maxAge := none, responseMode := .query,
          redirectUri := "https://app/cb", createdAt := 0,
          responseTypeToken := false, responseTypeIdToken := false,
          requiresConsent := false }
        { id := 10, user := { id := 7, username := "alice", sub := "s7" },
          createdAt := 0, lastAuthentication := none }
        { sessions := [], accessTokens := [], refreshTokens := [],
          grantFulfillments := [], consents := [], nextId := 1 }
        5 "at" "rt").2 =
      { sessions := [], accessTokens := [], refreshTokens := [],
        grantFulfillments := [], consents := [], nextId := 1 } ∧
    getDispatch 1 (complete
        { id := 1, stage := .cancelled 4, clientId := "web", code := none,
          acrValues := none, scope := ["openid"], state := none,
          nonce := none, maxAge := none, responseMode := .query,
          redirectUri := "https://app/cb", createdAt := 0,
          responseTypeToken := false, responseTypeIdToken := false,
          requiresConsent := false }
        { id := 10, user := { id := 7, username := "alice", sub := "s7" },
          createdAt := 0, lastAuthentication := none }
        { sessions := [], accessTokens := [], refreshTokens := [],
          grantFulfillments := [], consents := [], nextId := 1 }
        5 "at" "rt").1 = .httpError 400 :=
  complete_error_handling.1
    { id := 1, stage := .cancelled 4, clientId := "web", code := none,
      acrValues := none, scope := ["openid"], state := none,
      nonce := none, maxAge := none, responseMode := .query,
      redirectUri := "https://app/cb", createdAt := 0,
      responseTypeToken := false, responseTypeIdToken := false,
      requiresConsent := false }
    { id := 10, user := { id := 7, username := "alice", sub := "s7" },
      createdAt := 0, lastAuthentication := none }
    { sessions := [], accessTokens := [], refreshTokens := [],
      grantFulfillments := [], consents := [], nextId := 1 }
    5 "at" "rt" 1 (by decide)

/-- C8: for a Pending grant and a fresh browser session, completion
redirects to the Consent page exactly when `requires_consent` is set or
the scope difference against the fetched consent contains a non-device
scope; otherwise it does not. -/
theorem complete_consent_check (grant : AuthorizationGrant)
    (bs : BrowserSession) (db : Db) (now : Int) (a r : String) (gid : Int)
    (hp : grant.stage.isPending = true)
    (hf : wasAuthenticatedAfter bs (grantMaxAuthTime grant now) = true) :
    ((complete grant bs db now a r).1 = .error .requiresConsent ↔
      (grant.requiresConsent = true ∨
        ((scopeDifference grant.scope
          (fetchClientConsent db bs.user grant.clientId)).any
          fun s => !strStartsWith s "urn:matrix:device:") = true)) ∧
    (getDispatch gid (complete grant bs db now a r).1 =
        .redirectConsent gid ↔
      (grant.requiresConsent = true ∨
        ((scopeDifference grant.scope
          (fetchClientConsent db bs.user grant.clientId)).any
          fun s => !strStartsWith s "urn:matrix:device:") = true)) := by
  by_cases h3 : ((scopeDifference grant.scope
      (fetchClientConsent db bs.user grant.clientId)).any
      fun s => !strStartsWith s "urn:matrix:device:") ||
      grant.requiresConsent
  · constructor
    · simp only [complete, hp, hf, h3]
      simp [Bool.or_eq_true] at h3
      simp [getDispatch, h3.symm]
    · simp only [complete, hp, hf, h3]
      simp [Bool.or_eq_true] at h3
      simp [getDispatch, h3.symm]
  · by_cases h4 : grant.responseTypeIdToken
    · constructor
      · simp only [complete, hp, hf, h3]
        simp [Bool.or_eq_true] at h3
        simp [getDispatch, fulfillGrant, deriveSession, h4, h3]
        tauto
      · simp only [complete, hp, hf, h3]
        simp [Bool.or_eq_true] at h3
        simp [getDispatch, fulfillGrant, deriveSession, h4, h3]
        tauto
    · constructor
      · simp only [complete, hp, hf, h3]
        simp [Bool.or_eq_true] at h3
        simp [getDispatch, fulfillGrant, deriveSession, h4, h3]
        tauto
      · simp only [complete, hp, hf, h3]
        simp [Bool.or_eq_true] at h3
        simp [getDispatch, fulfillGrant, deriveSession, h4, h3]
        tauto

/-- Witness for C8: a pending grant asking `openid` with no recorded
consent is sent to the consent page. -/
theorem complete_consent_check_witness :
    (complete
        { id := 1, stage := .pending, clientId := "web", code := none,
          acrValues := none, scope := ["openid"], state := none,
          nonce := none, maxAge := none, responseMode := .query,
          redirectUri := "https://app/cb", createdAt := 0,
          responseTypeToken := false, responseTypeIdToken := false,
          requiresConsent := false }
        { id := 10, user := { id := 7, username := "alice", sub := "s7" },
          createdAt := 0, lastAuthentication := none }
        { sessions := [], accessTokens := [], refreshTokens := [],
          grantFulfillments := [], consents := [], nextId := 1 }
        5 "at" "rt").1 = .error .requiresConsent :=
  (complete_consent_check
    { id := 1, stage := .pending, clientId := "web", code := none,
      acrValues := none, scope := ["openid"], state := none,
      nonce := none, maxAge := none, responseMode := .query,
      redirectUri := "https://app/cb", createdAt := 0,
      responseTypeToken := false, responseTypeIdToken := false,
      requiresConsent := false }
    { id := 10, user := { id := 7, username := "alice", sub := "s7" },
      createdAt := 0, lastAuthentication := none }
    { sessions := [], accessTokens := [], refreshTokens := [],
      grantFulfillments := [], consents := [], nextId := 1 }
    5 "at" "rt" 1 (by decide) (by decide)).1.mpr (Or.inr (by decide))

/-- C9: a fulfilled grant with `response_type_token` set answers with a
Bearer access token expiring in 300 seconds and a refresh token bound to
it, and the committed state holds the two token rows together with the
fulfillment. -/
theorem complete_token_minting (grant : AuthorizationGrant)
    (bs : BrowserSession) (db : Db) (now : Int) (a r : String)
    (hp : grant.stage.isPending = true)
    (hf : wasAuthenticatedAfter bs (grantMaxAuthTime grant now) = true)
    (hl : ((scopeDifference grant.scope
      (fetchClientConsent db bs.user grant.clientId)).any
      fun s => !strStartsWith s "urn:matrix:device:") = false)
    (hrc : grant.requiresConsent = false)
    (ht : grant.responseTypeToken = true)
    (hid : grant.responseTypeIdToken = false) :
    ∃ p, (complete grant bs db now a r).1 = .ok p ∧
      p.response = some
        { accessToken := a, tokenType := "Bearer",
          expiresIn := some 300, refreshToken := some r } ∧
      (complete grant bs db now a r).2.accessTokens =
        { id := db.nextId + 1, sessionId := db.nextId, token := a,
          createdAt := now, expiresAfter := 300 } :: db.accessTokens ∧
      (complete grant bs db now a r).2.refreshTokens =
        { id := db.nextId + 2, sessionId := db.nextId,
          accessTokenId := db.nextId + 1, token := r } ::
          db.refreshTokens ∧
      (complete grant bs db now a r).2.grantFulfillments =
        (grant.id, db.nextId, now) :: db.grantFulfillments := by
  cases hcode : grant.code <;>
    simp [complete, hp, hf, hl, hrc, ht, hid, hcode, fulfillGrant,
      deriveSession, addAccessToken, addRefreshToken,
      AccessTokenResponse.new, AccessTokenResponse.withExpiresIn,
      AccessTokenResponse.withRefreshToken] <;> omega

/-- Witness for C9 at a concrete implicit-flow grant with consent on
record. -/
theorem complete_token_minting_witness :
    ∃ p, (complete
        { id := 1, stage := .pending, clientId := "web", code := none,
          acrValues := none, scope := ["openid"], state := none,
          nonce := none, maxAge := none, responseMode := .query,
          redirectUri := "https://app/cb", createdAt := 0,
          responseTypeToken := true, responseTypeIdToken := false,
          requiresConsent := false }
        { id := 10, user := { id := 7, username := "alice", sub := "s7" },
          createdAt := 0, lastAuthentication := none }
        { sessions := [], accessTokens := [], refreshTokens := [],
          grantFulfillments := [], consents := [(7, "web", ["openid"])],
          nextId := 100 }
        5 "mat_at_1" "mat_rt_1").1 = .ok p ∧
      p.response = some
        { accessToken := "mat_at_1", tokenType := "Bearer",
          expiresIn := some 300, refreshToken := some "mat_rt_1" } ∧
      (complete
        { id := 1, stage := .pending, clientId := "web", code := none,
          acrValues := none, scope := ["openid"], state := none,
          nonce := none, maxAge := none, responseMode := .query,
          redirectUri := "https://app/cb", createdAt := 0,
          responseTypeToken := true, responseTypeIdToken := false,
          requiresConsent := false }
        { id := 10, user := { id := 7, username := "alice", sub := "s7" },
          createdAt := 0, lastAuthentication := none }
        { sessions := [], accessTokens := [], refreshTokens := [],
          grantFulfillments := [], consents := [(7, "web", ["openid"])],
          nextId := 100 }
        5 "mat_at_1" "mat_rt_1").2.accessTokens =
        [{ id := 101, sessionId := 100, token := "mat_at_1",
           createdAt := 5, expiresAfter := 300 }] ∧
      (complete
        { id := 1, stage := .pending, clientId := "web", code := none,
          acrValues := none, scope := ["openid"], state := none,
          nonce := none, maxAge := none, responseMode := .query,
          redirectUri := "https://app/cb", createdAt := 0,
          responseTypeToken := true, responseTypeIdToken := false,
          requiresConsent := false }
        { id := 10, user := { id := 7, username := "alice", sub := "s7" },
          createdAt := 0, lastAuthentication := none }
        { sessions := [], accessTokens := [], refreshTokens := [],
          grantFulfillments := [], consents := [(7, "web", ["openid"])],
          nextId := 100 }
        5 "mat_at_1" "mat_rt_1").2.refreshTokens =
        [{ id := 102, sessionId := 100, accessTokenId := 101,
           token := "mat_rt_1" }] ∧
      (complete
        { id := 1, stage := .pending, clientId := "web", code := none,
          acrValues := none, scope := ["openid"], state := none,
          nonce := none, maxAge := none, responseMode := .query,
          redirectUri := "https://app/cb", createdAt := 0,
          responseTypeToken := true, responseTypeIdToken := false,
          requiresConsent := false }
        { id := 10, user := { id := 7, username := "alice", sub := "s7" },
          createdAt := 0, lastAuthentication := none }
        { sessions := [], accessTokens := [], refreshTokens := [],
          grantFulfillments := [], consents := [(7, "web", ["openid"])],
          nextId := 100 }
        5 "mat_at_1" "mat_rt_1").2.grantFulfillments = [(1, 100, 5)] :=
  complete_token_minting
    { id := 1, stage := .pending, clientId := "web", code := none,
      acrValues := none, scope := ["openid"], state := none,
      nonce := none, maxAge := none, responseMode := .query,
      redirectUri := "https://app/cb", createdAt := 0,
      responseTypeToken := true, responseTypeIdToken := false,
      requiresConsent := false }
    { id := 10, user := { id := 7, username := "alice", sub := "s7" },
      createdAt := 0, lastAuthentication := none }
    { sessions := [], accessTokens := [], refreshTokens := [],
      grantFulfillments := [], consents := [(7, "web", ["openid"])],
      nextId := 100 }
    5 "mat_at_1" "mat_rt_1" (by decide) (by decide) (by decide)
    (by decide) (by decide) (by decide)

/-- C2 (divergence exhibit): the loader drops `max_age` — any accepted row
yields a grant with `maxAge = none` whatever `grant_max_age` held — so a
Pending grant stored with `max_age = 60`, completed through the `get`
handler with a browser session whose last authentication is far older
than 60 seconds, is fulfilled (callback outcome) instead of being
redirected to Reauth. -/
theorem max_age_dropped_on_load :
    (∀ (row : GrantLookup) (g : AuthorizationGrant),
      row.tryInto = .ok g → g.maxAge = none) ∧
    GrantLookup.tryInto
      { grantId := 1, grantCreatedAt := 0, grantCancelledAt := none,
        grantFulfilledAt := none, grantExchangedAt := none,
        grantScope := "openid", grantState := none,
        grantRedirectUri := "https://app/cb", grantResponseMode := "query",
        grantNonce := none, grantMaxAge := some 60, grantAcrValues := none,
        grantResponseTypeCode := false, grantResponseTypeToken := false,
        grantResponseTypeIdToken := false, grantCode := none,
        grantCodeChallenge := none, grantCodeChallengeMethod := none,
        clientId := "web", sessionId := none, userSessionId := none,
        userSessionCreatedAt := none, userId := none, userUsername := none,
        userSessionLastAuthenticationId := none,
        userSessionLastAuthenticationCreatedAt := none } = .ok
      { id := 1, stage := .pending, clientId := "web", code := none,
        acrValues := none, scope := ["openid"], state := none,
        nonce := none, maxAge := none, responseMode := .query,
        redirectUri := "https://app/cb", createdAt := 0,
        responseTypeToken := false, responseTypeIdToken := false,
        requiresConsent := false } ∧
    (getHandler 1 (some
        { id := 10, user := { id := 7, username := "alice", sub := "s7" },
          createdAt := 0, lastAuthentication := some { id := 3, createdAt := 0 } })
        { id := 1, stage := .pending, clientId := "web", code := none,
          acrValues := none, scope := ["openid"], state := none,
          nonce := none, maxAge := none, responseMode := .query,
          redirectUri := "https://app/cb", createdAt := 0,
          responseTypeToken := false, responseTypeIdToken := false,
          requiresConsent := false }
        { sessions := [], accessTokens := [], refreshTokens := [],
          grantFulfillments := [], consents := [(7, "web", ["openid"])],
          nextId := 100 }
        1000000 "at" "rt").1 =
      .callback { code := none, response := none } := by
  refine ⟨?_, by decide, by decide⟩
  intro row g h
  exact (tryInto_ok_parts row g h).1

/-- Witness for C2's exhibit: the loaded grant of its concrete row indeed
carries no `max_age`. -/
theorem max_age_dropped_on_load_witness :
    AuthorizationGrant.maxAge
      { id := 1, stage := .pending, clientId := "web", code := none,
        acrValues := none, scope := ["openid"], state := none,
        nonce := none, maxAge := none, responseMode := .query,
        redirectUri := "https://app/cb", createdAt := 0,
        responseTypeToken := false, responseTypeIdToken := false,
        requiresConsent := false } = none :=
  max_age_dropped_on_load.1
    { grantId := 1, grantCreatedAt := 0, grantCancelledAt := none,
      grantFulfilledAt := none, grantExchangedAt := none,
      grantScope := "openid", grantState := none,
      grantRedirectUri := "https://app/cb", grantResponseMode := "query",
      grantNonce := none, grantMaxAge := some 60, grantAcrValues := none,
      grantResponseTypeCode := false, grantResponseTypeToken := false,
      grantResponseTypeIdToken := false, grantCode := none,
      grantCodeChallenge := none, grantCodeChallengeMethod := none,
      clientId := "web", sessionId := none, userSessionId := none,
      userSessionCreatedAt := none, userId := none, userUsername := none,
      userSessionLastAuthenticationId := none,
      userSessionLastAuthenticationCreatedAt := none }
    { id := 1, stage := .pending, clientId := "web", code := none,
      acrValues := none, scope := ["openid"], state := none,
      nonce := none, maxAge := none, responseMode := .query,
      redirectUri := "https://app/cb", createdAt := 0,
      responseTypeToken := false, responseTypeIdToken := false,
      requiresConsent := false }
    (by decide)

/-- C3 (divergence exhibit): a Pending grant with `response_type_id_token`
set, fresh session and consent on record makes `complete` fail with the
"id tokens are not implemented yet" error (an HTTP 500 through `get`)
instead of minting an ID token, and the transaction rolls back. -/
theorem id_token_not_implemented :
    complete
      { id := 1, stage := .pending, clientId := "web", code := none,
        acrValues := none, scope := ["openid"], state := none,
        nonce := none, maxAge := none, responseMode := .query,
        redirectUri := "https://app/cb", createdAt := 0,
        responseTypeToken := false, responseTypeIdToken := true,
        requiresConsent := false }
      { id := 10, user := { id := 7, username := "alice", sub := "s7" },
        createdAt := 0, lastAuthentication := none }
      { sessions := [], accessTokens := [], refreshTokens := [],
        grantFulfillments := [], consents := [(7, "web", ["openid"])],
        nextId := 100 }
      5 "at" "rt" =
    (.error (.anyhow "id tokens are not implemented yet"),
      { sessions := [], accessTokens := [], refreshTokens := [],
        grantFulfillments := [], consents := [(7, "web", ["openid"])],
        nextId := 100 }) ∧
    getDispatch 1 (Except.error
      (GrantCompletionError.anyhow "id tokens are not implemented yet")) =
      .httpError 500 := by
  constructor
  · decide
  · rfl
